import Mathlib

/-!
Shallow embedding of the easytcp connection session and request router
(src/session.go): the data model, the session lifecycle operations, the
read/write loops (driven by explicit event scripts standing for the
network connection and the packer), and the router's registry, dispatch
loop and middleware composition.  Machine-level effects are made explicit:
a Go channel is a buffer list plus a closed flag; sending on a closed
channel is the panic the `safelyPush…` helpers recover from; `sync.Once`
is a done flag.
-/

/-- `message.Entry`: the opaque envelope `{ID, Data}`. The routing key is
modelled as a natural number, the payload as a byte list. -/
structure Entry where
  id : Nat
  data : List Nat
deriving DecidableEq, Repr

/-- A Go channel: a FIFO buffer plus a closed flag. -/
structure Chan (α : Type) where
  buf : List α
  closed : Bool
deriving DecidableEq, Repr

/-- Sending on a channel: `none` models the runtime panic raised by a send
on a closed channel; otherwise the element is appended to the buffer. -/
def Chan.push {α : Type} (c : Chan α) (a : α) : Option (Chan α) :=
  if c.closed then none else some { c with buf := c.buf ++ [a] }

/-- `close(ch)`. -/
def Chan.closeCh {α : Type} (c : Chan α) : Chan α :=
  { c with closed := true }

/-- The state of a `Session` (src/session.go): the one-shot closed signal,
the two bounded queues, and the `sync.Once` done flag guarding `Close`. -/
structure Session where
  closedSignal : Bool
  reqQueue : Chan Entry
  respQueue : Chan Entry
  closeOnceDone : Bool
deriving DecidableEq, Repr

/-- `NewSession`: fresh queues, closed signal not fired, once not done. -/
def NewSession : Session :=
  { closedSignal := false
    reqQueue := { buf := [], closed := false }
    respQueue := { buf := [], closed := false }
    closeOnceDone := false }

/-- Well-formedness: the `sync.Once` done flag agrees with the closing
side effects (it is set exactly when the signal fired and both queues were
closed).  Holds for every session reachable from `NewSession`. -/
def Session.WF (s : Session) : Prop :=
  s.closeOnceDone = true →
    s.closedSignal = true ∧ s.reqQueue.closed = true ∧ s.respQueue.closed = true

instance (s : Session) : Decidable s.WF := by
  unfold Session.WF; infer_instance

/-- `Session.Close`: `closeOnce.Do` runs the body only when the once has
not fired; the body closes the signal channel and both queues. -/
def Session.Close (s : Session) : Session :=
  if s.closeOnceDone then s
  else
    { closedSignal := true
      reqQueue := s.reqQueue.closeCh
      respQueue := s.respQueue.closeCh
      closeOnceDone := true }

/-- `Session.WaitUntilClosed` receives from the closed-signal channel: it
returns (rather than blocking) exactly when the signal has fired. -/
def Session.waitUntilClosedReturns (s : Session) : Bool :=
  s.closedSignal

/-- `safelyPushRespQueue`: the send on `respQueue`, with the panic from a
closed channel recovered into `ok = false`. -/
def Session.safelyPushRespQueue (s : Session) (respMsg : Entry) : Bool × Session :=
  match s.respQueue.push respMsg with
  | none => (false, s)
  | some q => (true, { s with respQueue := q })

/-- `safelyPushReqQueue`: the send on `reqQueue`, with the panic from a
closed channel recovered into `ok = false`. -/
def Session.safelyPushReqQueue (s : Session) (reqMsg : Entry) : Bool × Session :=
  match s.reqQueue.push reqMsg with
  | none => (false, s)
  | some q => (true, { s with reqQueue := q })

/-- `Session.SendResp`: pushes onto `respQueue`; a failed push becomes the
error "session's closed".  Returns the error result and resulting state. -/
def Session.SendResp (s : Session) (respMsg : Entry) : Option String × Session :=
  match s.safelyPushRespQueue respMsg with
  | (false, s') => (some "session's closed", s')
  | (true, s') => (none, s')

/-- The request `Context` consumed by the router: a reference to the
originating session (here: whether its closed signal has fired at the
moment the dispatch loop inspects it) and the request message, which in
the source is a nil-able pointer. -/
structure Context where
  sessionClosed : Bool
  reqMsg : Option Entry

/-- `HandlerFunc`: `func(ctx *Context) (*message.Entry, error)`. -/
def HandlerFunc : Type := Context → Option Entry × Option String

/-- `MiddlewareFunc`: `func(next HandlerFunc) HandlerFunc`. -/
def MiddlewareFunc : Type := HandlerFunc → HandlerFunc

/-- `nilHandler`: returns no response entry and no error. -/
def nilHandler : HandlerFunc := fun _ => (none, none)

/-- The `Router` state: the two per-ID mappings (a `sync.Map` is modelled
as a partial function on message IDs), the global middleware list, the
optional not-found handler, and the pending-request queue's capacity. -/
structure Router where
  handlerMapper : Nat → Option HandlerFunc
  middlewaresMapper : Nat → Option (List MiddlewareFunc)
  globalMiddlewares : List MiddlewareFunc
  notFoundHandler : Option HandlerFunc
  reqCtxQueueCap : Int

/-- `newRouter(queueSize ...int)`: `size` starts at 0 and is set to the
first variadic argument only when that argument is positive. -/
def newRouter (queueSize : List Int) : Router :=
  let size : Int :=
    match queueSize with
    | [] => 0
    | qs :: _ => if qs > 0 then qs else 0
  { handlerMapper := fun _ => none
    middlewaresMapper := fun _ => none
    globalMiddlewares := []
    notFoundHandler := none
    reqCtxQueueCap := size }

/-- `Router.register`: stores the handler for `i` when it is non-nil, and
stores the nil-filtered per-ID middleware list when it is non-empty. -/
def Router.register (r : Router) (i : Nat) (h : Option HandlerFunc)
    (m : List (Option MiddlewareFunc)) : Router :=
  let r1 : Router :=
    match h with
    | some hf => { r with handlerMapper := fun k => if k = i then some hf else r.handlerMapper k }
    | none => r
  let ms : List MiddlewareFunc := m.filterMap (fun x => x)
  if ms.length ≠ 0 then
    { r1 with middlewaresMapper := fun k => if k = i then some ms else r1.middlewaresMapper k }
  else r1

/-- `Router.registerMiddleware`: appends the non-nil arguments to the
global middleware list, in call order. -/
def Router.registerMiddleware (r : Router) (m : List (Option MiddlewareFunc)) : Router :=
  { r with globalMiddlewares := r.globalMiddlewares ++ m.filterMap (fun x => x) }

/-- `Router.setNotFoundHandler`. -/
def Router.setNotFoundHandler (r : Router) (handler : Option HandlerFunc) : Router :=
  { r with notFoundHandler := handler }

/-- `Router.wrapHandlers`: substitutes the not-found handler (then the
no-op handler) for a nil handler, then wraps it with each middleware from
last to first, so the first middleware of the list is outermost. -/
def Router.wrapHandlers (r : Router) (handler : Option HandlerFunc)
    (middles : List MiddlewareFunc) : HandlerFunc :=
  let h1 : Option HandlerFunc :=
    match handler with
    | some hf => some hf
    | none => r.notFoundHandler
  let h2 : HandlerFunc :=
    match h1 with
    | some hf => hf
    | none => nilHandler
  middles.foldr (fun m w => m w) h2

/-- `Router.handleRequest`: looks up handler and per-ID middlewares by
`ctx.reqMsg.ID` (a nil `reqMsg` makes this access fault: modelled as
`none`), appends per-ID middlewares to the global ones, wraps, and calls
the stack on the context. -/
def Router.handleRequest (r : Router) (ctx : Context) :
    Option (Option Entry × Option String) :=
  match ctx.reqMsg with
  | none => none
  | some msg =>
    let handler : Option HandlerFunc := r.handlerMapper msg.id
    let mws : List MiddlewareFunc :=
      match r.middlewaresMapper msg.id with
      | some perID => r.globalMiddlewares ++ perID
      | none => r.globalMiddlewares
    some (r.wrapHandlers handler mws ctx)

/-- One iteration's worth of connection behaviour for the read loop: the
outcome of `SetReadDeadline` (consulted only when a deadline is armed) and
the outcome of `packer.Unpack` (`none` models an unpack error). -/
structure ReadEvent where
  deadlineErr : Bool
  unpack : Option Entry
deriving DecidableEq, Repr

/-- `Session.ReadLoop`, driven by a script of per-iteration connection
events.  A deadline-arming error, an unpack error or a failed push breaks
the loop, after which the session is closed; the result carries the final
session and the unconsumed script (the reads never attempted).  `none`
means the script ran out with the loop still running (blocked reading). -/
def Session.ReadLoop (readTimeout : Int) (s : Session) :
    List ReadEvent → Option (Session × List ReadEvent)
  | [] => none
  | ev :: rest =>
    if readTimeout > 0 ∧ ev.deadlineErr then some (s.Close, rest)
    else
      match ev.unpack with
      | none => some (s.Close, rest)
      | some entry =>
        match s.safelyPushReqQueue entry with
        | (false, s') => some (s'.Close, rest)
        | (true, s') => s'.ReadLoop readTimeout rest

/-- One iteration's worth of connection behaviour for the write loop: the
outcome of `SetWriteDeadline` (consulted only when a deadline is armed and
packing succeeded) and of `conn.Write`. -/
structure WriteEvent where
  deadlineErr : Bool
  writeErr : Bool
deriving DecidableEq, Repr

/-- `Session.WriteLoop`: drains `respQueue`; a closed empty queue ends the
loop; a pack error drops that entry and continues; a deadline-arming or
write error breaks the loop.  After the loop the session is closed.  The
result carries the final session and the byte sequences successfully
written, in order; `none` means the loop is still running (blocked on an
empty open queue, or the event script ran out mid-iteration). -/
def Session.WriteLoop (writeTimeout : Int) (pack : Entry → Option (List Nat))
    (s : Session) : List WriteEvent → Option (Session × List (List Nat))
  | [] =>
    match s.respQueue.buf with
    | [] => if s.respQueue.closed then some (s.Close, []) else none
    | _ :: _ => none
  | ev :: evrest =>
    match s.respQueue.buf with
    | [] => if s.respQueue.closed then some (s.Close, []) else none
    | e :: bs =>
      let s' : Session := { s with respQueue := { s.respQueue with buf := bs } }
      match pack e with
      | none => s'.WriteLoop writeTimeout pack evrest
      | some bytes =>
        if writeTimeout > 0 ∧ ev.deadlineErr then some (s'.Close, [])
        else if ev.writeErr then some (s'.Close, [])
        else (s'.WriteLoop writeTimeout pack evrest).map
          (fun res => (res.1, bytes :: res.2))

/-- What the dispatch loop's `select` observes in one round: the stop
signal firing, the pending-request queue being closed, or the queue
yielding a request context. -/
inductive RouterEvent where
  | stopFired
  | queueClosed
  | yield (ctx : Context)

/-- How the dispatch loop ended. -/
inductive LoopExit where
  | stopSignal
  | queueDrained
deriving DecidableEq, Repr

/-- Result of running the dispatch loop over an event script: how it
ended (`none`: script exhausted, loop still running), the per-request
tasks it spawned (each with its `handleRequest` outcome), and whether the
loop itself closed the pending-request queue. -/
structure DispatchResult where
  exit : Option LoopExit
  spawned : List (Context × Option (Option Entry × Option String))
  closedQueue : Bool

/-- `Router.consumeRequest`, driven by a script of `select` observations.
The stop signal closes the pending-request queue and returns; a closed
queue returns; a yielded context is skipped when its session is already
closed or its message entry is nil, and otherwise a per-request task is
spawned; nothing a task does feeds back into the loop. -/
def Router.consumeRequest (r : Router) : List RouterEvent → DispatchResult
  | [] => { exit := none, spawned := [], closedQueue := false }
  | RouterEvent.stopFired :: _ =>
    { exit := some LoopExit.stopSignal, spawned := [], closedQueue := true }
  | RouterEvent.queueClosed :: _ =>
    { exit := some LoopExit.queueDrained, spawned := [], closedQueue := false }
  | RouterEvent.yield ctx :: rest =>
    if ctx.sessionClosed then r.consumeRequest rest
    else if ctx.reqMsg = none then r.consumeRequest rest
    else
      let res := r.consumeRequest rest
      { res with spawned := (ctx, r.handleRequest ctx) :: res.spawned }

theorem close_close (s : Session) : s.Close.Close = s.Close := by
  unfold Session.Close
  by_cases h : s.closeOnceDone <;> simp [h]

example : (NewSession.Close).closedSignal = true := by decide
example : (NewSession.Close.SendResp ⟨1, [2]⟩).1 = some "session's closed" := by decide

/-- C1: for a request whose message ID has a registered handler, global
middlewares and per-ID middlewares, `handleRequest` runs the stack built
by folding the concatenation (globals first, then per-ID) from the last
middleware inwards over the handler; the first middleware of the combined
list is the outermost wrapper (`wrapHandlers` on `m :: ms` applies `m`
to the wrapping of `ms` — onion composition). -/
theorem handleRequest_onion (r : Router) (i : Nat) (h : HandlerFunc)
    (perID : List MiddlewareFunc) (ctx : Context) (msg : Entry)
    (hmsg : ctx.reqMsg = some msg) (hid : msg.id = i)
    (hh : r.handlerMapper i = some h)
    (hm : r.middlewaresMapper i = some perID) :
    r.handleRequest ctx
      = some ((r.globalMiddlewares ++ perID).foldr (fun m w => m w) h ctx)
    ∧ ∀ (m : MiddlewareFunc) (ms : List MiddlewareFunc) (h0 : HandlerFunc),
        r.wrapHandlers (some h0) (m :: ms) = m (r.wrapHandlers (some h0) ms) := by
  constructor
  · unfold Router.handleRequest
    rw [hmsg]
    simp only [hid, hh, hm]
    rfl
  · intro m ms h0
    rfl

/-- A handler used to exercise the router theorems on concrete inputs:
it answers with ID 2 and payload `[0]`. -/
def demoHandler : HandlerFunc := fun _ => (some ⟨2, [0]⟩, none)

/-- A middleware that tags the response's payload with `n`, making the
wrapping order observable. -/
def demoMw (n : Nat) : MiddlewareFunc := fun next c =>
  match next c with
  | (some e, err) => (some ⟨e.id, n :: e.data⟩, err)
  | (none, err) => (none, err)

/-- A router with one global middleware, and a handler plus one per-ID
middleware registered for ID 5. -/
def demoRouter : Router :=
  (((newRouter []).registerMiddleware [some (demoMw 1)]).register
    5 (some demoHandler) [some (demoMw 2)])

theorem handleRequest_onion_witness :
    demoRouter.handleRequest ⟨false, some ⟨5, []⟩⟩
      = some ((demoRouter.globalMiddlewares ++ [demoMw 2]).foldr
          (fun m w => m w) demoHandler ⟨false, some ⟨5, []⟩⟩)
    ∧ ∀ (m : MiddlewareFunc) (ms : List MiddlewareFunc) (h0 : HandlerFunc),
        demoRouter.wrapHandlers (some h0) (m :: ms)
          = m (demoRouter.wrapHandlers (some h0) ms) :=
  handleRequest_onion demoRouter 5 demoHandler [demoMw 2]
    ⟨false, some ⟨5, []⟩⟩ ⟨5, []⟩ rfl rfl rfl rfl

/-- The global middleware (tag 1) brackets the per-ID one (tag 2), which
brackets the handler. -/
example : demoRouter.handleRequest ⟨false, some ⟨5, []⟩⟩
    = some (some ⟨2, [1, 2, 0]⟩, none) := rfl

/-- C7: when no handler is registered for the request's ID,
`wrapHandlers` substitutes the configured not-found handler, or — when
none is configured — the no-op handler returning no entry and no error;
in both cases `handleRequest` still applies the middleware chain
(global middlewares, then per-ID ones) around the substituted handler. -/
theorem wrapHandlers_notfound_fallback (r : Router) (ctx : Context) (msg : Entry)
    (hmsg : ctx.reqMsg = some msg)
    (hh : r.handlerMapper msg.id = none) :
    (∀ nf, r.notFoundHandler = some nf →
       ∀ mws, r.wrapHandlers none mws = mws.foldr (fun m w => m w) nf)
    ∧ (r.notFoundHandler = none →
       ∀ mws, r.wrapHandlers none mws = mws.foldr (fun m w => m w) nilHandler)
    ∧ nilHandler ctx = (none, none)
    ∧ r.handleRequest ctx = some (r.wrapHandlers none
        (match r.middlewaresMapper msg.id with
         | some perID => r.globalMiddlewares ++ perID
         | none => r.globalMiddlewares) ctx) := by
  refine ⟨?_, ?_, rfl, ?_⟩
  · intro nf hnf mws
    unfold Router.wrapHandlers
    rw [hnf]
  · intro hnf mws
    unfold Router.wrapHandlers
    rw [hnf]
  · unfold Router.handleRequest
    rw [hmsg]
    simp only [hh]

theorem wrapHandlers_notfound_fallback_witness :
    ((newRouter []).handlerMapper 9 = none)
    ∧ ((newRouter []).handleRequest ⟨false, some ⟨9, []⟩⟩
        = some ((newRouter []).wrapHandlers none
            (match (newRouter []).middlewaresMapper 9 with
             | some perID => (newRouter []).globalMiddlewares ++ perID
             | none => (newRouter []).globalMiddlewares) ⟨false, some ⟨9, []⟩⟩)) :=
  ⟨rfl, (wrapHandlers_notfound_fallback (newRouter []) ⟨false, some ⟨9, []⟩⟩
    ⟨9, []⟩ rfl rfl).2.2.2⟩

/-- C9: `handleRequest` dereferences `ctx.reqMsg.ID`; when the request
message is non-nil (the precondition the dispatch loop's nil guard
establishes), it never faults on that access. -/
theorem handleRequest_no_nil_deref (r : Router) (ctx : Context) (msg : Entry)
    (hmsg : ctx.reqMsg = some msg) :
    (r.handleRequest ctx).isSome = true := by
  unfold Router.handleRequest
  rw [hmsg]
  rfl

theorem handleRequest_no_nil_deref_witness :
    ((newRouter []).handleRequest ⟨false, some ⟨3, [1]⟩⟩).isSome = true :=
  handleRequest_no_nil_deref (newRouter []) ⟨false, some ⟨3, [1]⟩⟩ ⟨3, [1]⟩ rfl

/-- C10: `newRouter` clamps an absent, zero or negative capacity argument
to zero (an unbuffered pending-request queue), so the capacity handed to
queue construction is never negative; a positive argument is kept. -/
theorem newRouter_queue_capacity :
    ((newRouter []).reqCtxQueueCap = 0)
    ∧ (∀ (qs : Int) (rest : List Int), qs ≤ 0 →
        (newRouter (qs :: rest)).reqCtxQueueCap = 0)
    ∧ (∀ l : List Int, 0 ≤ (newRouter l).reqCtxQueueCap)
    ∧ (∀ (qs : Int) (rest : List Int), 0 < qs →
        (newRouter (qs :: rest)).reqCtxQueueCap = qs) := by
  refine ⟨rfl, ?_, ?_, ?_⟩
  · intro qs rest hqs
    simp [newRouter, not_lt.mpr hqs]
  · intro l
    match l with
    | [] => simp [newRouter]
    | qs :: rest =>
      by_cases hqs : qs > 0
      · simp only [newRouter]
        rw [if_pos hqs]
        omega
      · simp [newRouter, hqs]
  · intro qs rest hqs
    simp [newRouter, hqs]

theorem newRouter_queue_capacity_witness :
    (newRouter [-3]).reqCtxQueueCap = 0 ∧ (newRouter [7]).reqCtxQueueCap = 7 :=
  ⟨newRouter_queue_capacity.2.1 (-3) [] (by decide),
   newRouter_queue_capacity.2.2.2 7 [] (by decide)⟩

/-- C8: `register` stores the handler only when it is non-nil (the update
replaces whatever was registered before for that ID), stores the per-ID
middleware list filtered to non-nil elements only when that filtered list
is non-empty, and touches no other ID. -/
theorem register_spec (r : Router) (i : Nat) (h : HandlerFunc)
    (m : List (Option MiddlewareFunc)) :
    ((r.register i (some h) m).handlerMapper i = some h)
    ∧ (∀ m', (r.register i none m').handlerMapper = r.handlerMapper)
    ∧ (m.filterMap (fun x => x) ≠ [] →
        (r.register i (some h) m).middlewaresMapper i
          = some (m.filterMap (fun x => x)))
    ∧ (m.filterMap (fun x => x) = [] →
        (r.register i (some h) m).middlewaresMapper = r.middlewaresMapper)
    ∧ (∀ k, k ≠ i →
        (r.register i (some h) m).handlerMapper k = r.handlerMapper k
        ∧ (r.register i (some h) m).middlewaresMapper k
            = r.middlewaresMapper k) := by
  refine ⟨?_, ?_, ?_, ?_, ?_⟩
  · unfold Router.register
    by_cases hms : (m.filterMap (fun x => x)).length ≠ 0 <;> simp [hms]
  · intro m'
    unfold Router.register
    by_cases hms : (m'.filterMap (fun x => x)).length ≠ 0 <;> simp [hms]
  · intro hne
    have hlen : (m.filterMap (fun x => x)).length ≠ 0 := by
      simpa [List.length_eq_zero] using hne
    unfold Router.register
    simp [hlen]
  · intro heq
    unfold Router.register
    simp [heq]
  · intro k hk
    unfold Router.register
    by_cases hms : (m.filterMap (fun x => x)).length ≠ 0 <;> simp [hms, hk]

theorem register_spec_witness :
    (((newRouter []).register 4 (some demoHandler)
        [none, some (demoMw 3)]).handlerMapper 4 = some demoHandler)
    ∧ (((newRouter []).register 4 (some demoHandler)
        [none, some (demoMw 3)]).middlewaresMapper 4 = some [demoMw 3]) :=
  ⟨(register_spec (newRouter []) 4 demoHandler [none, some (demoMw 3)]).1,
   (register_spec (newRouter []) 4 demoHandler [none, some (demoMw 3)]).2.2.1
     (by simp)⟩

/-- After `Close` the once flag is set and the closing side effects are
visible (for well-formed sessions, also when the once had already run). -/
theorem close_effects (s : Session) (hwf : s.WF) :
    (s.Close).closedSignal = true ∧ (s.Close).reqQueue.closed = true
      ∧ (s.Close).respQueue.closed = true ∧ (s.Close).closeOnceDone = true := by
  unfold Session.Close
  by_cases h : s.closeOnceDone
  · obtain ⟨h1, h2, h3⟩ := hwf h
    simp [h, h1, h2, h3]
  · simp [h, Chan.closeCh]

/-- C2: after `Close`, `safelyPushRespQueue` catches the panic of the send
on the closed outbound queue and reports failure without changing state,
and `SendResp` turns that failure into the ordinary error
"session's closed" — the caller gets an error result, not a crash. -/
theorem sendResp_after_close (s : Session) (hwf : s.WF) (e : Entry) :
    (s.Close.safelyPushRespQueue e).1 = false
    ∧ (s.Close.safelyPushRespQueue e).2 = s.Close
    ∧ (s.Close.SendResp e).1 = some "session's closed"
    ∧ (s.Close.SendResp e).2 = s.Close := by
  have hc : (s.Close).respQueue.closed = true := (close_effects s hwf).2.2.1
  have hpush : (s.Close).respQueue.push e = none := by
    unfold Chan.push
    rw [hc]
    rfl
  have h1 : s.Close.safelyPushRespQueue e = (false, s.Close) := by
    unfold Session.safelyPushRespQueue
    rw [hpush]
  refine ⟨by rw [h1], by rw [h1], ?_, ?_⟩
  · unfold Session.SendResp
    rw [h1]
  · unfold Session.SendResp
    rw [h1]

theorem sendResp_after_close_witness :
    (NewSession.Close.SendResp ⟨1, [2, 3]⟩).1 = some "session's closed"
    ∧ (NewSession.Close.SendResp ⟨1, [2, 3]⟩).2 = NewSession.Close :=
  ⟨(sendResp_after_close NewSession (by decide) ⟨1, [2, 3]⟩).2.2.1,
   (sendResp_after_close NewSession (by decide) ⟨1, [2, 3]⟩).2.2.2⟩

/-- Iterating `Close` after a first call changes nothing further. -/
theorem close_iterate (s : Session) :
    ∀ m : Nat, Session.Close^[m] s.Close = s.Close := by
  intro m
  induction m with
  | zero => rfl
  | succ k ih =>
    rw [Function.iterate_succ_apply, close_close, ih]

/-- C3: `Close` is idempotent: the first call fires the closed signal and
closes both queues; every later call (any number of them) is a no-op that
leaves the session state unchanged; when the once flag had already fired,
`Close` changes nothing at all; and once closed, `WaitUntilClosed`
returns for every caller. -/
theorem close_idempotent (s : Session) (hwf : s.WF) :
    ((s.Close).closedSignal = true ∧ (s.Close).reqQueue.closed = true
       ∧ (s.Close).respQueue.closed = true)
    ∧ s.Close.Close = s.Close
    ∧ (∀ n : Nat, 1 ≤ n → Session.Close^[n] s = s.Close)
    ∧ (s.closeOnceDone = true → s.Close = s)
    ∧ (s.Close).waitUntilClosedReturns = true := by
  obtain ⟨h1, h2, h3, _⟩ := close_effects s hwf
  refine ⟨⟨h1, h2, h3⟩, close_close s, ?_, ?_, ?_⟩
  · intro n hn
    obtain ⟨m, rfl⟩ : ∃ m, n = m + 1 := ⟨n - 1, by omega⟩
    rw [Function.iterate_succ_apply]
    exact close_iterate s m
  · intro hdone
    unfold Session.Close
    rw [hdone]
    rfl
  · unfold Session.waitUntilClosedReturns
    exact h1

theorem close_idempotent_witness :
    (NewSession.Close).closedSignal = true
    ∧ Session.Close^[3] NewSession = NewSession.Close
    ∧ (NewSession.Close).waitUntilClosedReturns = true :=
  ⟨(close_idempotent NewSession (by decide)).1.1,
   (close_idempotent NewSession (by decide)).2.2.1 3 (by decide),
   (close_idempotent NewSession (by decide)).2.2.2.2⟩

/-- A well-formed session whose inbound queue is still open cannot have
run its close-once body yet. -/
theorem wf_open_not_done (s : Session) (hwf : s.WF)
    (hopen : s.reqQueue.closed = false) : s.closeOnceDone = false := by
  cases h : s.closeOnceDone
  · rfl
  · have h2 := (hwf h).2.1
    rw [hopen] at h2
    exact Bool.noConfusion h2

/-- C4: if the packer yields `N-1` entries and then an unpack error, the
read loop pushes exactly those `N-1` entries onto the inbound queue in
arrival order, stops at the failing read leaving the rest of the script
untouched (no retry), and closes the session on exit. -/
theorem readLoop_bad_frame (t : Int) (entries : List Entry)
    (rest : List ReadEvent) :
    ∀ s : Session, s.WF → s.reqQueue.closed = false →
    ∃ s' : Session,
      s.ReadLoop t (entries.map (fun e => ReadEvent.mk false (some e))
          ++ ReadEvent.mk false none :: rest) = some (s', rest)
      ∧ s'.reqQueue.buf = s.reqQueue.buf ++ entries
      ∧ s'.closedSignal = true ∧ s'.reqQueue.closed = true
      ∧ s'.respQueue.closed = true := by
  induction entries with
  | nil =>
    intro s hwf hopen
    have hdone := wf_open_not_done s hwf hopen
    refine ⟨s.Close, ?_, ?_, ?_, ?_, ?_⟩
    · simp [Session.ReadLoop]
    · simp [Session.Close, hdone, Chan.closeCh]
    · simp [Session.Close, hdone]
    · simp [Session.Close, hdone, Chan.closeCh]
    · simp [Session.Close, hdone, Chan.closeCh]
  | cons e es ih =>
    intro s hwf hopen
    have hdone := wf_open_not_done s hwf hopen
    have hpush : s.safelyPushReqQueue e
        = (true, { s with reqQueue := { s.reqQueue with buf := s.reqQueue.buf ++ [e] } }) := by
      unfold Session.safelyPushReqQueue Chan.push
      simp [hopen]
    have hwf2 : Session.WF { s with reqQueue := { s.reqQueue with buf := s.reqQueue.buf ++ [e] } } := by
      intro hd
      have hd' : s.closeOnceDone = true := hd
      rw [hdone] at hd'
      exact Bool.noConfusion hd'
    have hopen2 : ({ s with reqQueue := { s.reqQueue with buf := s.reqQueue.buf ++ [e] } } : Session).reqQueue.closed = false := hopen
    obtain ⟨s', hrun, hbuf, hsig, hrq, hrp⟩ :=
      ih { s with reqQueue := { s.reqQueue with buf := s.reqQueue.buf ++ [e] } } hwf2 hopen2
    refine ⟨s', ?_, ?_, hsig, hrq, hrp⟩
    · simp only [List.map_cons, List.cons_append, Session.ReadLoop]
      simp only [Bool.false_eq_true, and_false, if_false, hpush]
      exact hrun
    · rw [hbuf]
      simp

theorem readLoop_bad_frame_witness :
    ∃ s' : Session,
      NewSession.ReadLoop 0
          ([Entry.mk 1 [], Entry.mk 2 []].map (fun e => ReadEvent.mk false (some e))
            ++ ReadEvent.mk false none :: []) = some (s', [])
      ∧ s'.reqQueue.buf = NewSession.reqQueue.buf ++ [Entry.mk 1 [], Entry.mk 2 []]
      ∧ s'.closedSignal = true ∧ s'.reqQueue.closed = true
      ∧ s'.respQueue.closed = true :=
  readLoop_bad_frame 0 [Entry.mk 1 [], Entry.mk 2 []] [] NewSession
    (by decide) (by decide)

/-- Whenever the write loop exits — for any reason — the resulting
session is closed (closed signal fired, outbound queue closed). -/
theorem writeLoop_closes (t : Int) (pack : Entry → Option (List Nat)) :
    ∀ (evs : List WriteEvent) (s : Session), s.WF →
      ∀ s' ws, s.WriteLoop t pack evs = some (s', ws) →
      s'.closedSignal = true ∧ s'.respQueue.closed = true := by
  intro evs
  induction evs with
  | nil =>
    intro s hwf s' ws hrun
    rcases hbuf : s.respQueue.buf with _ | ⟨e, bs⟩ <;>
      rcases hcl : s.respQueue.closed with _ | _ <;>
        simp [Session.WriteLoop, hbuf, hcl] at hrun
    obtain ⟨hs', _⟩ := hrun
    subst hs'
    cases hdone : s.closeOnceDone
    · constructor <;> simp [Session.Close, hdone, Chan.closeCh]
    · obtain ⟨h1, _, h3⟩ := hwf hdone
      constructor <;> simp [Session.Close, hdone, h1, h3]
  | cons ev evrest ih =>
    intro s hwf s' ws hrun
    rcases hbuf : s.respQueue.buf with _ | ⟨e, bs⟩
    · rcases hcl : s.respQueue.closed with _ | _ <;>
        simp [Session.WriteLoop, hbuf, hcl] at hrun
      obtain ⟨hs', _⟩ := hrun
      subst hs'
      cases hdone : s.closeOnceDone
      · constructor <;> simp [Session.Close, hdone, Chan.closeCh]
      · obtain ⟨h1, _, h3⟩ := hwf hdone
        constructor <;> simp [Session.Close, hdone, h1, h3]
    · have hwf2 : Session.WF { s with respQueue := { s.respQueue with buf := bs } } := by
        intro hd
        exact hwf hd
      rcases hpack : pack e with _ | ⟨bytes⟩
      · simp only [Session.WriteLoop, hbuf, hpack] at hrun
        exact ih _ hwf2 s' ws hrun
      · simp only [Session.WriteLoop, hbuf, hpack] at hrun
        by_cases hdl : t > 0 ∧ ev.deadlineErr
        · rw [if_pos hdl] at hrun
          have hs'' : s' = Session.Close { s with respQueue := { s.respQueue with buf := bs } } := by
            cases hrun
            rfl
          subst hs''
          cases hdone : s.closeOnceDone
          · constructor <;> simp [Session.Close, hdone, Chan.closeCh]
          · obtain ⟨h1, _, h3⟩ := hwf hdone
            constructor <;> simp [Session.Close, hdone, h1, h3]
        · rw [if_neg hdl] at hrun
          by_cases hwr : ev.writeErr
          · rw [if_pos hwr] at hrun
            have hs'' : s' = Session.Close { s with respQueue := { s.respQueue with buf := bs } } := by
              cases hrun
              rfl
            subst hs''
            cases hdone : s.closeOnceDone
            · constructor <;> simp [Session.Close, hdone, Chan.closeCh]
            · obtain ⟨h1, _, h3⟩ := hwf hdone
              constructor <;> simp [Session.Close, hdone, h1, h3]
          · rw [if_neg hwr] at hrun
            obtain ⟨res, hres, heq⟩ := Option.map_eq_some'.mp hrun
            have hs'' : s' = res.1 := by
              have := congrArg Prod.fst heq
              simpa using this.symm
            subst hs''
            exact ih _ hwf2 res.1 res.2 hres

/-- C5: in the write loop a pack error is non-terminal — that entry is
dropped and the loop continues with the rest of the queue; a
deadline-arming error (when a deadline is armed) or a network write error
is terminal — the loop stops and the session is closed; and on loop exit
for any reason the session ends up closed. -/
theorem writeLoop_error_policy (t : Int) (pack : Entry → Option (List Nat))
    (s : Session) (hwf : s.WF) :
    (∀ e bs ev evs, s.respQueue.buf = e :: bs → pack e = none →
      s.WriteLoop t pack (ev :: evs)
        = Session.WriteLoop t pack
            { s with respQueue := { s.respQueue with buf := bs } } evs)
    ∧ (∀ e bs (ev : WriteEvent) evs b, s.respQueue.buf = e :: bs →
        pack e = some b → t > 0 → ev.deadlineErr = true →
        s.WriteLoop t pack (ev :: evs)
          = some (Session.Close
              { s with respQueue := { s.respQueue with buf := bs } }, []))
    ∧ (∀ e bs (ev : WriteEvent) evs b, s.respQueue.buf = e :: bs →
        pack e = some b → ¬(t > 0 ∧ ev.deadlineErr = true) →
        ev.writeErr = true →
        s.WriteLoop t pack (ev :: evs)
          = some (Session.Close
              { s with respQueue := { s.respQueue with buf := bs } }, []))
    ∧ (∀ evs s' ws, s.WriteLoop t pack evs = some (s', ws) →
        s'.closedSignal = true ∧ s'.respQueue.closed = true) := by
  refine ⟨?_, ?_, ?_, ?_⟩
  · intro e bs ev evs hbuf hpack
    simp only [Session.WriteLoop, hbuf, hpack]
  · intro e bs ev evs b hbuf hpack ht hdl
    simp only [Session.WriteLoop, hbuf, hpack]
    rw [if_pos ⟨ht, hdl⟩]
  · intro e bs ev evs b hbuf hpack hnot hwr
    simp only [Session.WriteLoop, hbuf, hpack]
    rw [if_neg hnot, if_pos hwr]
  · intro evs s' ws hrun
    exact writeLoop_closes t pack evs s hwf s' ws hrun

/-- A session with one queued outbound entry, to exercise the write loop
on concrete inputs. -/
def demoWSession : Session :=
  { closedSignal := false
    reqQueue := { buf := [], closed := false }
    respQueue := { buf := [Entry.mk 1 [7]], closed := false }
    closeOnceDone := false }

theorem writeLoop_error_policy_witness :
    demoWSession.WriteLoop 0 (fun e => some e.data) [WriteEvent.mk false true]
      = some (Session.Close
          { demoWSession with
              respQueue := { demoWSession.respQueue with buf := [] } }, []) :=
  (writeLoop_error_policy 0 (fun e => some e.data) demoWSession
      (by decide)).2.2.1
    (Entry.mk 1 [7]) [] (WriteEvent.mk false true) [] [7] rfl rfl
    (by decide) rfl

/-- C6: the dispatch loop skips request contexts whose session is already
closed and those whose message entry is nil; the stop signal ends the loop
and closes the pending-request queue, and a closed pending-request queue
ends it; after spawning a per-request task the loop continues regardless
of that task's `handleRequest` outcome (the exit is determined by the
remaining observations alone), and a script of mere requests never ends
the loop. -/
theorem consumeRequest_policy (r : Router) :
    (∀ rest, r.consumeRequest (RouterEvent.stopFired :: rest)
        = { exit := some LoopExit.stopSignal, spawned := [], closedQueue := true })
    ∧ (∀ rest, r.consumeRequest (RouterEvent.queueClosed :: rest)
        = { exit := some LoopExit.queueDrained, spawned := [], closedQueue := false })
    ∧ (∀ ctx rest, ctx.sessionClosed = true →
        r.consumeRequest (RouterEvent.yield ctx :: rest) = r.consumeRequest rest)
    ∧ (∀ ctx rest, ctx.reqMsg = none →
        r.consumeRequest (RouterEvent.yield ctx :: rest) = r.consumeRequest rest)
    ∧ (∀ ctx rest, ctx.sessionClosed = false → ctx.reqMsg ≠ none →
        (r.consumeRequest (RouterEvent.yield ctx :: rest)).exit
            = (r.consumeRequest rest).exit
        ∧ (r.consumeRequest (RouterEvent.yield ctx :: rest)).closedQueue
            = (r.consumeRequest rest).closedQueue
        ∧ (r.consumeRequest (RouterEvent.yield ctx :: rest)).spawned
            = (ctx, r.handleRequest ctx) :: (r.consumeRequest rest).spawned)
    ∧ (∀ evs, (∀ ev ∈ evs, ∃ c, ev = RouterEvent.yield c) →
        (r.consumeRequest evs).exit = none) := by
  refine ⟨fun rest => rfl, fun rest => rfl, ?_, ?_, ?_, ?_⟩
  · intro ctx rest hcl
    simp [Router.consumeRequest, hcl]
  · intro ctx rest hmsg
    simp [Router.consumeRequest, hmsg]
  · intro ctx rest hcl hmsg
    refine ⟨?_, ?_, ?_⟩ <;> simp [Router.consumeRequest, hcl, hmsg]
  · intro evs
    induction evs with
    | nil => intro _; rfl
    | cons ev rest ih =>
      intro hall
      obtain ⟨c, rfl⟩ := hall ev (List.mem_cons_self ev rest)
      have hrest := ih (fun e he => hall e (List.mem_cons_of_mem _ he))
      by_cases hcl : c.sessionClosed
      · simpa [Router.consumeRequest, hcl] using hrest
      · by_cases hmsg : c.reqMsg = none
        · simpa [Router.consumeRequest, hcl, hmsg] using hrest
        · simpa [Router.consumeRequest, hcl, hmsg] using hrest

theorem consumeRequest_policy_witness :
    ((newRouter []).consumeRequest [RouterEvent.stopFired]
        = { exit := some LoopExit.stopSignal, spawned := [], closedQueue := true })
    ∧ ((newRouter []).consumeRequest
          [RouterEvent.yield (Context.mk true (some (Entry.mk 1 []))),
           RouterEvent.queueClosed]
        = { exit := some LoopExit.queueDrained, spawned := [], closedQueue := false }) :=
  ⟨(consumeRequest_policy (newRouter [])).1 [],
   ((consumeRequest_policy (newRouter [])).2.2.1
       (Context.mk true (some (Entry.mk 1 []))) [RouterEvent.queueClosed] rfl).trans
     ((consumeRequest_policy (newRouter [])).2.1 [])⟩
